import Mathlib

/-!
Shallow embedding of `src/object/object_manager.cpp` (Colobot: Gold Edition,
`CObjectManager`): the object registry (create / delete / clean / lookup /
team queries) and the radar query engine.

Modelling conventions:
* `std::map<unsigned int, std::unique_ptr<CObject>>` becomes a list of
  `(Nat × Option Obj)` pairs; `none` is an empty (reset) slot, i.e. a
  `unique_ptr` holding `nullptr`.  `std::map` iterates in ascending key
  order, so `begin()` is the head of the list and `operator[]`-insertion is
  ordered insertion (`mapInsert`).
* Angles are represented in units of π radians, so `Math::PI*2.0f` is the
  rational number `2` and `Math::NormAngle` (reduction into [0, 2π)) is an
  exact rational operation.
* The transcendental geometry helpers `Math::DistanceProjected` (planar
  distance, a square root) and `Math::RotateAngle` (a clockwise atan2) are
  not expressible as computable rational functions; they are parameters
  (`dProj`, `rotAngle`) of the radar definitions.  Concrete instantiations
  in closed theorems use configurations (coincident points, full-circle
  cones) on which the chosen rational stand-in agrees with the true
  function.
* Floats become `ℚ`; entity ids (`unsigned int` map keys) become `Nat`;
  `params.id` (a signed `int`, tested `< 0`) becomes `Int`.
-/

/-- Modelled from the spec: `ObjectType` is a closed enumeration declared in
`object/object_type.h`, which is not under `src/`.  We include the
constructors that `object_manager.cpp` mentions, plus `OBJECT_MOBILEwa` as a
representative ordinary category for concrete registries. -/
inductive ObjectType where
  | OBJECT_NULL
  | OBJECT_RUINmobilew1
  | OBJECT_RUINmobilew2
  | OBJECT_RUINmobilet1
  | OBJECT_RUINmobilet2
  | OBJECT_RUINmobiler1
  | OBJECT_RUINmobiler2
  | OBJECT_SCRAP1
  | OBJECT_SCRAP2
  | OBJECT_SCRAP3
  | OBJECT_SCRAP4
  | OBJECT_SCRAP5
  | OBJECT_BARRIER1
  | OBJECT_BARRIER2
  | OBJECT_BARRIER3
  | OBJECT_TOTO
  | OBJECT_CONTROLLER
  | OBJECT_MOBILEwa
deriving DecidableEq, Repr

open ObjectType

/-- `Math::Vector` (x, y, z floats); the radar uses only `x` and `z`. -/
structure Vec where
  x : ℚ
  y : ℚ
  z : ℚ
deriving DecidableEq, Repr

/-- Modelled from the spec: the entity capability surface consumed by the
manager (`CObject` / `COldObject`, declared outside `src/`): id, category,
team, active flag, proxy flag, "being transported" flag, position, and the
optional physics capability, flattened to `physics : Option Bool` holding
the landed state reported by `CPhysics::GetLand`. -/
structure Obj where
  id : Nat
  objType : ObjectType
  team : Int
  active : Bool
  proxyActivate : Bool
  beingTransported : Bool
  pos : Vec
  physics : Option Bool
deriving DecidableEq, Repr

/-- `ObjectCreateParams` (from `object/object_create_params.h`): the fields
filled by the convenience `CreateObject` overload in the source. -/
structure ObjectCreateParams where
  pos : Vec
  angle : ℚ
  type : ObjectType
  power : ℚ
  zoom : ℚ
  height : ℚ
  trainer : Bool
  toy : Bool
  option : Int
  team : Int
  id : Int
deriving DecidableEq, Repr

/-- `CObjectCreateException` thrown by `CObjectManager::CreateObject` when
the factory returns no object; it carries a message and the requested
`ObjectType`. -/
inductive CreateError where
  | CObjectCreateException (message : String) (type : ObjectType)
deriving DecidableEq, Repr

/-- The manager state: `m_objects` (ascending-key association list of owned
slots), `m_nextId`, `m_shouldCleanRemovedObjects`. -/
structure ObjectManager where
  objects : List (Nat × Option Obj)
  nextId : Nat
  shouldClean : Bool
deriving DecidableEq, Repr

/-- `std::map::find` on the slot list: the value stored under a key, if the
key is present. -/
def mapFind : List (Nat × Option Obj) → Nat → Option (Option Obj)
  | [], _ => none
  | (k, v) :: rest, i => if k = i then some v else mapFind rest i

/-- `std::map::count` on the slot list (0 or 1 for a `std::map`). -/
def mapCount (l : List (Nat × Option Obj)) (i : Nat) : Nat :=
  match mapFind l i with
  | some _ => 1
  | none => 0

/-- `it->second.reset()` after `find(i)`: empty the slot stored under key
`i` (the key is retained). -/
def mapReset : List (Nat × Option Obj) → Nat → List (Nat × Option Obj)
  | [], _ => []
  | (k, v) :: rest, i => if k = i then (k, none) :: rest else (k, v) :: mapReset rest i

/-- `m_objects[i] = v`: ordered insertion (or replacement) into the
ascending-key list, matching `std::map::operator[]` assignment. -/
def mapInsert : List (Nat × Option Obj) → Nat → Option Obj → List (Nat × Option Obj)
  | [], i, v => [(i, v)]
  | (k, w) :: rest, i, v =>
    if i < k then (i, v) :: (k, w) :: rest
    else if i = k then (k, v) :: rest
    else (k, w) :: mapInsert rest i v

/-- `CObjectManager::DeleteObject`: find the instance's id; if present,
empty the slot (releasing ownership) and set the pending-cleanup flag,
returning `true`; otherwise return `false`.  The `COldObject::DeleteObject`
teardown call mutates only the entity itself, which the registry-level
claims never observe after the slot is emptied. -/
def DeleteObject (m : ObjectManager) (inst : Obj) : ObjectManager × Bool :=
  match mapFind m.objects inst.id with
  | some _ =>
      ({ m with objects := mapReset m.objects inst.id, shouldClean := true }, true)
  | none => (m, false)

/-- `CObjectManager::CleanRemovedObjects`: look at `begin()` only; if that
single slot is empty, erase it; clear the pending-cleanup flag. -/
def CleanRemovedObjects (m : ObjectManager) : ObjectManager :=
  let objects :=
    match m.objects with
    | [] => []
    | (k, v) :: rest => if v = none then rest else (k, v) :: rest
  { m with objects := objects, shouldClean := false }

/-- `n` successive calls to `CleanRemovedObjects`. -/
def cleanN : Nat → ObjectManager → ObjectManager
  | 0, m => m
  | n + 1, m => cleanN n (CleanRemovedObjects m)

/-- `CObjectManager::GetObjectById`: `nullptr` when the key is absent,
otherwise the slot's `.get()` (which is `nullptr` for an emptied slot, so an
absent key and a tombstoned slot are indistinguishable here). -/
def GetObjectById (m : ObjectManager) (i : Nat) : Option Obj :=
  if mapCount m.objects i = 0 then none
  else match mapFind m.objects i with
       | some v => v
       | none => none

/-- `assert(m_objects.find(params.id) == m_objects.end())` in
`CreateObject`: the id about to be used must not already be a key. -/
def CreateAssertOk (m : ObjectManager) (params : ObjectCreateParams) : Prop :=
  mapFind m.objects (if params.id < 0 then m.nextId else params.id.toNat) = none

/-- `CObjectManager::CreateObject(params)`.  The factory collaborator is a
parameter.  If `params.id < 0` the counter value is assigned as the id and
the counter advances (this happens before the factory runs; the mutation
survives a factory failure).  A factory failure throws
`CObjectCreateException` carrying `params.type`; the thrown-past state is
returned alongside the `Except` result.  On success the owned object is
stored under the id and the non-owning reference returned. -/
def CreateObject (factory : ObjectCreateParams → Option Obj)
    (m : ObjectManager) (params : ObjectCreateParams) :
    ObjectManager × Except CreateError Obj :=
  let params' := if params.id < 0 then { params with id := (m.nextId : Int) } else params
  let m1 := if params.id < 0 then { m with nextId := m.nextId + 1 } else m
  match factory params' with
  | none =>
      (m1, Except.error (CreateError.CObjectCreateException
        "Something went wrong in CObjectFactory" params'.type))
  | some obj =>
      ({ m1 with objects := mapInsert m1.objects params'.id.toNat (some obj) },
       Except.ok obj)

/-- Modelled from the spec: `CObjectManager::GetAllObjects` (declared in
`object/object_manager.h`, not under `src/`) "produces the current
non-owning reference list (skipping empty slots)". -/
def GetAllObjects (m : ObjectManager) : List Obj :=
  m.objects.filterMap Prod.snd

/-- `CObjectManager::TeamExists`: team 0 always exists; otherwise scan all
objects for an active one with the given team. -/
def TeamExists (m : ObjectManager) (team : Int) : Bool :=
  if team = 0 then true
  else (GetAllObjects m).any fun o => o.active && decide (o.team = team)

/-- Modelled from the spec: the `RadarFilter` flag values from
`object/object_manager.h` (not under `src/`).  The usage in the source pins
the layout: the team id lives in the low byte (`filter & 0xFF`) and the
flight and allegiance flags are disjoint higher bits. -/
def FILTER_NONE : Nat := 0

/-- `FILTER_ONLYLANDING` flag bit. -/
def FILTER_ONLYLANDING : Nat := 0x100

/-- `FILTER_ONLYFLYING` flag bit. -/
def FILTER_ONLYFLYING : Nat := 0x200

/-- `FILTER_FRIENDLY` flag bit. -/
def FILTER_FRIENDLY : Nat := 0x400

/-- `FILTER_ENEMY` flag bit. -/
def FILTER_ENEMY : Nat := 0x800

/-- `FILTER_NEUTRAL` flag bit. -/
def FILTER_NEUTRAL : Nat := 0x1000

/-- Modelled from the spec: `Math::NormAngle` (math module, not under
`src/`) reduces an angle into [0, 2π).  Angles are in units of π, so this
is reduction modulo 2. -/
def NormAngle (a : ℚ) : ℚ := a - 2 * ⌊a / 2⌋

/-- Modelled from the spec: `Math::TestAngle` (math module, not under
`src/`): membership of an angle in the normalized arc from `mi` to `ma`,
with wrap-around when the normalized bounds are out of order. -/
def TestAngle (angle mi ma : ℚ) : Bool :=
  let a := NormAngle angle
  let lo := NormAngle mi
  let hi := NormAngle ma
  if lo > hi then decide (a ≤ hi) || decide (a ≥ lo)
  else decide (a ≥ lo) && decide (a ≤ hi)

/-- The `cbotTypes` canonicalization applied to a candidate's type inside
`Radar`: the three sequential rewrites collapsing ruin variants to
`OBJECT_RUINmobilew1`, scrap variants to `OBJECT_SCRAP1`, and barrier
variants to `OBJECT_BARRIER1`. -/
def radarNormType (oType : ObjectType) : ObjectType :=
  let a :=
    if oType = OBJECT_RUINmobilew2 ∨ oType = OBJECT_RUINmobilet1 ∨
       oType = OBJECT_RUINmobilet2 ∨ oType = OBJECT_RUINmobiler1 ∨
       oType = OBJECT_RUINmobiler2
    then OBJECT_RUINmobilew1 else oType
  let b :=
    if a = OBJECT_SCRAP2 ∨ a = OBJECT_SCRAP3 ∨ a = OBJECT_SCRAP4 ∨
       a = OBJECT_SCRAP5
    then OBJECT_SCRAP1 else a
  if b = OBJECT_BARRIER2 ∨ b = OBJECT_BARRIER3 then OBJECT_BARRIER1 else b

/-- The per-query locals of `CObjectManager::Radar` after its preprocessing
lines: the geometry parameters, requester, pre-scaled distance band,
normalized cone center, and the three masks split out of `filter`. -/
structure RadarCtx where
  dProj : Vec → Vec → ℚ
  rotAngle : ℚ → ℚ → ℚ
  pThis : Option Obj
  iPos : Vec
  iAngle : ℚ
  type : List ObjectType
  focus : ℚ
  minDist : ℚ
  maxDist : ℚ
  furthest : Bool
  filterTeam : Nat
  filterFlying : Nat
  filterEnemy : Nat
  cbotTypes : Bool

/-- The chain of `continue` conditions of the radar loop body, in source
order, as one conjunction: a candidate object satisfies `radarCheck` iff it
reaches the scoring step (including the angular test at the end). -/
def radarCheck (c : RadarCtx) (o : Obj) : Bool :=
  !o.beingTransported &&
  o.active &&
  !o.proxyActivate &&
  (let oType := if c.cbotTypes then radarNormType o.objType else o.objType
   !(decide (oType ∉ c.type) && decide (0 < c.type.length)) &&
   !((decide (oType = OBJECT_TOTO) || decide (oType = OBJECT_CONTROLLER)) &&
     decide (c.type.length = 0))) &&
  !(decide (c.filterFlying = FILTER_ONLYLANDING) &&
    (match o.physics with | some land => !land | none => false)) &&
  !(decide (c.filterFlying = FILTER_ONLYFLYING) &&
    (match o.physics with | some land => land | none => false)) &&
  !(decide (c.filterTeam ≠ 0) && decide (o.team ≠ (c.filterTeam : Int))) &&
  !(match c.pThis with
    | some pt =>
        let enemy : Nat :=
          (if o.team = 0 then FILTER_NEUTRAL else 0) |||
          (if o.team ≠ 0 ∧ o.team = pt.team then FILTER_FRIENDLY else 0) |||
          (if o.team ≠ 0 ∧ o.team ≠ pt.team then FILTER_ENEMY else 0)
        decide (c.filterEnemy ≠ 0) && decide (c.filterEnemy &&& enemy = 0)
    | none => false) &&
  (let d := c.dProj c.iPos o.pos
   !(decide (d < c.minDist) || decide (d > c.maxDist))) &&
  (let a := c.rotAngle (o.pos.x - c.iPos.x) (c.iPos.z - o.pos.z)
   TestAngle a (c.iAngle - c.focus / 2) (c.iAngle + c.focus / 2) ||
   decide (c.focus ≥ 2))

/-- The main loop of `Radar`: fold over the slot list carrying the running
best distance and best reference.  A slot equal to the requester, an empty
slot, or a candidate failing `radarCheck` is skipped; otherwise the
candidate replaces the running best when strictly closer (nearest mode) or
strictly farther (furthest mode). -/
def radarScan (c : RadarCtx) :
    List (Nat × Option Obj) → ℚ → Option Obj → Option Obj
  | [], _, pBest => pBest
  | (_, slot) :: rest, best, pBest =>
    if slot = c.pThis then radarScan c rest best pBest
    else
      match slot with
      | none => radarScan c rest best pBest
      | some o =>
        if radarCheck c o then
          if (!c.furthest && decide (c.dProj c.iPos o.pos < best)) ||
             (c.furthest && decide (c.dProj c.iPos o.pos > best)) then
            radarScan c rest (c.dProj c.iPos o.pos) (some o)
          else radarScan c rest best pBest
        else radarScan c rest best pBest

/-- The preprocessing lines of `Radar`: scale the distance band by the
world-unit constant `g_unit` (an external configuration value, here the
parameter `gUnit`), normalize the cone center `thisAngle + angle`, and
split `filter` into its team / flight / allegiance parts. -/
def mkRadarCtx (dProj : Vec → Vec → ℚ) (rotAngle : ℚ → ℚ → ℚ) (gUnit : ℚ)
    (pThis : Option Obj) (thisPosition : Vec) (thisAngle : ℚ)
    (type : List ObjectType) (angle focus minDist maxDist : ℚ)
    (furthest : Bool) (filter : Nat) (cbotTypes : Bool) : RadarCtx :=
  { dProj := dProj
    rotAngle := rotAngle
    pThis := pThis
    iPos := thisPosition
    iAngle := NormAngle (thisAngle + angle)
    type := type
    focus := focus
    minDist := minDist * gUnit
    maxDist := maxDist * gUnit
    furthest := furthest
    filterTeam := filter &&& 0xFF
    filterFlying := filter &&& (FILTER_ONLYLANDING ||| FILTER_ONLYFLYING)
    filterEnemy := filter &&& (FILTER_FRIENDLY ||| FILTER_ENEMY ||| FILTER_NEUTRAL)
    cbotTypes := cbotTypes }

/-- `CObjectManager::Radar` (the canonical overload taking an explicit
position, heading, and type list): preprocess the query, then scan the
registry with the sentinel best distance (100000 for nearest mode, 0 for
furthest mode) and no best reference. -/
def Radar (dProj : Vec → Vec → ℚ) (rotAngle : ℚ → ℚ → ℚ) (gUnit : ℚ)
    (objects : List (Nat × Option Obj))
    (pThis : Option Obj) (thisPosition : Vec) (thisAngle : ℚ)
    (type : List ObjectType) (angle focus minDist maxDist : ℚ)
    (furthest : Bool) (filter : Nat) (cbotTypes : Bool) : Option Obj :=
  radarScan
    (mkRadarCtx dProj rotAngle gUnit pThis thisPosition thisAngle type
      angle focus minDist maxDist furthest filter cbotTypes)
    objects
    (if !furthest then (100000 : ℚ) else 0)
    none

/-- A candidate "passes all filters" of a radar query: it is not the
requester and satisfies every `continue` condition of the loop body
(including the distance band and the angular test), with the query
preprocessed exactly as in `Radar`. -/
def radarAccepts (dProj : Vec → Vec → ℚ) (rotAngle : ℚ → ℚ → ℚ) (gUnit : ℚ)
    (pThis : Option Obj) (thisPosition : Vec) (thisAngle : ℚ)
    (type : List ObjectType) (angle focus minDist maxDist : ℚ)
    (furthest : Bool) (filter : Nat) (cbotTypes : Bool) (o : Obj) : Bool :=
  let c := mkRadarCtx dProj rotAngle gUnit pThis thisPosition thisAngle type
    angle focus minDist maxDist furthest filter cbotTypes
  decide (some o ≠ pThis) && radarCheck c o

/-- Number of empty (marked-for-removal) slots of a slot list. -/
def emptySlotCount (l : List (Nat × Option Obj)) : Nat :=
  (l.filter fun p => p.2 = none).length

/-- The duplicate-free-keys invariant `std::map` maintains for `m_objects`. -/
def keysNodup (l : List (Nat × Option Obj)) : Prop :=
  (l.map Prod.fst).Nodup

/-- The origin, used as query position and entity position in concrete
registries. -/
def vec0 : Vec := ⟨0, 0, 0⟩

/-- Stand-in for `Math::DistanceProjected` in concrete configurations where
every entity sits at the query position: the true planar distance between
coincident points is 0, so this function agrees with the real one on every
pair the scan consults. -/
def dProj0 : Vec → Vec → ℚ := fun _ _ => 0

/-- Stand-in for `Math::RotateAngle` in concrete configurations; every
query below uses a full-circle cone (`focus = 2π`), for which the source
accepts the candidate whatever the computed bearing is, so the value is
irrelevant. -/
def rot0 : ℚ → ℚ → ℚ := fun _ _ => 0

/-- A plain active entity: an ordinary category, team 1, at the origin, no
physics capability. -/
def obj0 : Obj :=
  { id := 0, objType := OBJECT_MOBILEwa, team := 1, active := true,
    proxyActivate := false, beingTransported := false, pos := vec0,
    physics := none }

/-- An entity of the canonical ruin category `OBJECT_RUINmobilew1`. -/
def ruin1Obj : Obj := { obj0 with objType := OBJECT_RUINmobilew1 }

/-- An entity of the non-canonical ruin category `OBJECT_RUINmobilew2`. -/
def ruin2Obj : Obj := { obj0 with objType := OBJECT_RUINmobilew2 }

/-- An entity of the system category `OBJECT_TOTO`. -/
def totoObj : Obj := { obj0 with objType := OBJECT_TOTO }

/-- Registry whose unique empty slot (key 1) sits behind a live slot. -/
def mgrLiveThenEmpty : ObjectManager :=
  { objects := [(0, some obj0), (1, none)], nextId := 2, shouldClean := true }

/-- Registry whose first slot (key 3) is its unique empty slot. -/
def mgrEmptyThenLive : ObjectManager :=
  { objects := [(3, none), (7, some obj0)], nextId := 8, shouldClean := true }

/-- Registry holding the single live entity `obj0` under its id 0. -/
def mgrSingle : ObjectManager :=
  { objects := [(0, some obj0)], nextId := 1, shouldClean := false }

/-- The empty registry in its initial state. -/
def mgrEmpty : ObjectManager :=
  { objects := [], nextId := 0, shouldClean := false }

/-- Creation parameters with an unset id (`id = -1 < 0`). -/
def params0 : ObjectCreateParams :=
  { pos := vec0, angle := 0, type := OBJECT_MOBILEwa, power := 0, zoom := 0,
    height := 0, trainer := false, toy := false, option := 0, team := 1,
    id := -1 }

/-- A factory collaborator that always constructs `obj0`. -/
def factoryOk : ObjectCreateParams → Option Obj := fun _ => some obj0

/-- A factory collaborator that always fails. -/
def factoryFail : ObjectCreateParams → Option Obj := fun _ => none

/-! ### Association-list (std::map) lemmas -/

theorem mapFind_eq_none_of_not_mem (l : List (Nat × Option Obj)) (i : Nat)
    (h : i ∉ l.map Prod.fst) : mapFind l i = none := by
  induction l with
  | nil => rfl
  | cons hd tl ih =>
    obtain ⟨k, v⟩ := hd
    simp only [List.map_cons, List.mem_cons] at h
    push_neg at h
    simp only [mapFind, if_neg (Ne.symm h.1)]
    exact ih h.2

theorem mapFind_of_mem_nodup (l : List (Nat × Option Obj)) (k : Nat)
    (v : Option Obj) (hnd : keysNodup l) (hm : (k, v) ∈ l) :
    mapFind l k = some v := by
  induction l with
  | nil => cases hm
  | cons hd tl ih =>
    obtain ⟨k', v'⟩ := hd
    simp only [keysNodup, List.map_cons, List.nodup_cons] at hnd
    rcases List.mem_cons.mp hm with heq | hmem
    · obtain ⟨hk, hv⟩ := Prod.mk.injEq .. ▸ heq
      simp [mapFind, hk.symm, hv]
    · have hne : k' ≠ k := by
        rintro rfl
        exact hnd.1 (List.mem_map.mpr ⟨(k', v), hmem, rfl⟩)
      simp only [mapFind, if_neg hne]
      exact ih hnd.2 hmem

theorem mapFind_mapReset_self (l : List (Nat × Option Obj)) (i : Nat) (v : Option Obj)
    (h : mapFind l i = some v) : mapFind (mapReset l i) i = some none := by
  induction l with
  | nil => simp [mapFind] at h
  | cons hd tl ih =>
    obtain ⟨k, w⟩ := hd
    by_cases hk : k = i
    · simp [mapReset, mapFind, hk]
    · simp only [mapFind, if_neg hk] at h
      simp only [mapReset, if_neg hk, mapFind]
      exact ih h

theorem mapReset_keys (l : List (Nat × Option Obj)) (i : Nat) :
    (mapReset l i).map Prod.fst = l.map Prod.fst := by
  induction l with
  | nil => rfl
  | cons hd tl ih =>
    obtain ⟨k, w⟩ := hd
    by_cases hk : k = i
    · simp [mapReset, hk]
    · simp [mapReset, hk, ih]

theorem mem_of_mem_mapReset (l : List (Nat × Option Obj)) (i k : Nat) (o : Obj)
    (h : (k, some o) ∈ mapReset l i) : (k, some o) ∈ l := by
  induction l with
  | nil => cases h
  | cons hd tl ih =>
    obtain ⟨k', w⟩ := hd
    by_cases hk : k' = i
    · simp only [mapReset, if_pos hk] at h
      rcases List.mem_cons.mp h with heq | hmem
      · cases heq
      · exact List.mem_cons_of_mem _ hmem
    · simp only [mapReset, if_neg hk] at h
      rcases List.mem_cons.mp h with heq | hmem
      · exact heq ▸ List.mem_cons_self _ _
      · exact List.mem_cons_of_mem _ (ih hmem)

theorem mapFind_mapInsert_self (l : List (Nat × Option Obj)) (i : Nat) (v : Option Obj) :
    mapFind (mapInsert l i v) i = some v := by
  induction l with
  | nil => simp [mapInsert, mapFind]
  | cons hd tl ih =>
    obtain ⟨k, w⟩ := hd
    by_cases hlt : i < k
    · simp [mapInsert, hlt, mapFind]
    · by_cases heq : i = k
      · simp [mapInsert, hlt, heq, mapFind]
      · have hne : k ≠ i := fun h => heq h.symm
        simp only [mapInsert, if_neg hlt, if_neg heq, mapFind, if_neg hne]
        exact ih

/-! ### Cleanup lemmas -/

theorem clean_objects_cases (m : ObjectManager) :
    (CleanRemovedObjects m).objects = m.objects ∨
    (CleanRemovedObjects m).objects = m.objects.tail := by
  cases hl : m.objects with
  | nil => simp [CleanRemovedObjects, hl]
  | cons hd tl =>
    obtain ⟨k, v⟩ := hd
    by_cases hv : v = none
    · right; simp [CleanRemovedObjects, hl, hv]
    · left; simp [CleanRemovedObjects, hl, hv]

theorem clean_preserves_tombstone (m : ObjectManager) (i : Nat)
    (hnd : keysNodup m.objects)
    (h : mapFind m.objects i = some none ∨ mapFind m.objects i = none) :
    keysNodup (CleanRemovedObjects m).objects ∧
      (mapFind (CleanRemovedObjects m).objects i = some none ∨
       mapFind (CleanRemovedObjects m).objects i = none) := by
  cases hl : m.objects with
  | nil =>
    constructor
    · simp [CleanRemovedObjects, hl, keysNodup]
    · right; simp [CleanRemovedObjects, hl, mapFind]
  | cons hd tl =>
    obtain ⟨k, v⟩ := hd
    rw [hl] at hnd h
    simp only [keysNodup, List.map_cons, List.nodup_cons] at hnd
    by_cases hv : v = none
    · have hobj : (CleanRemovedObjects m).objects = tl := by
        simp [CleanRemovedObjects, hl, hv]
      rw [hobj]
      refine ⟨hnd.2, ?_⟩
      by_cases hk : k = i
      · right
        exact mapFind_eq_none_of_not_mem tl i (hk ▸ hnd.1)
      · simpa only [mapFind, if_neg hk] using h
    · have hobj : (CleanRemovedObjects m).objects = (k, v) :: tl := by
        simp [CleanRemovedObjects, hl, hv]
      rw [hobj]
      exact ⟨by simpa [keysNodup] using hnd, h⟩

theorem cleanN_preserves_tombstone (n : Nat) (m : ObjectManager) (i : Nat)
    (hnd : keysNodup m.objects)
    (h : mapFind m.objects i = some none ∨ mapFind m.objects i = none) :
    mapFind (cleanN n m).objects i = some none ∨
    mapFind (cleanN n m).objects i = none := by
  induction n generalizing m with
  | zero => exact h
  | succ n ih =>
    obtain ⟨hnd', h'⟩ := clean_preserves_tombstone m i hnd h
    exact ih (CleanRemovedObjects m) hnd' h'

theorem getObjectById_none_of_tombstone (m : ObjectManager) (i : Nat)
    (h : mapFind m.objects i = some none ∨ mapFind m.objects i = none) :
    GetObjectById m i = none := by
  rcases h with h | h <;> simp [GetObjectById, mapCount, h]

/-! ### Claim C2 -/

/-- C2 (counterexample): the registry `mgrLiveThenEmpty` has exactly one
empty slot (key 1), yet one call to `CleanRemovedObjects` does not remove
that key — the function only inspects the first slot, which is live, so the
registry is left unchanged.  This falsifies "for every registry state with
exactly one empty slot, one call removes that slot's key". -/
theorem cleanRemovedObjects_skips_nonhead_empty_slot :
    emptySlotCount mgrLiveThenEmpty.objects = 1 ∧
    mapCount (CleanRemovedObjects mgrLiveThenEmpty).objects 1 = 1 ∧
    (CleanRemovedObjects mgrLiveThenEmpty).objects = mgrLiveThenEmpty.objects := by
  with_unfolding_all decide

/-- C2 (amended): each call to `CleanRemovedObjects` erases at most the
first (lowest-key) slot, and only when that slot is empty: if the first
slot is the registry's empty slot its key is removed by one call, while a
registry whose first slot is live is left unchanged (so an empty slot
preceded by a live one is not removed by the call). -/
theorem cleanRemovedObjects_first_slot_only (m : ObjectManager) :
    ((CleanRemovedObjects m).objects = m.objects ∨
     (CleanRemovedObjects m).objects = m.objects.tail) ∧
    (∀ k rest, m.objects = (k, none) :: rest → k ∉ rest.map Prod.fst →
      mapCount (CleanRemovedObjects m).objects k = 0) ∧
    (∀ k o rest, m.objects = (k, some o) :: rest →
      (CleanRemovedObjects m).objects = m.objects) := by
  refine ⟨clean_objects_cases m, ?_, ?_⟩
  · intro k rest hl hk
    have hobj : (CleanRemovedObjects m).objects = rest := by
      simp [CleanRemovedObjects, hl]
    rw [hobj, mapCount, mapFind_eq_none_of_not_mem rest k hk]
  · intro k o rest hl
    simp [CleanRemovedObjects, hl]

/-- C2 (witness for the amended theorem): on `mgrEmptyThenLive`, whose
first slot (key 3) is empty, one call removes key 3. -/
theorem cleanRemovedObjects_first_slot_only_witness :
    mapCount (CleanRemovedObjects mgrEmptyThenLive).objects 3 = 0 :=
  (cleanRemovedObjects_first_slot_only mgrEmptyThenLive).2.1 3 [(7, some obj0)]
    rfl (by with_unfolding_all decide)

/-! ### Claim C3 -/

/-- C3: for every live entity `e` of a well-keyed registry, after
`DeleteObject e` followed by any number of `CleanRemovedObjects` calls
(in particular, enough to drain every pending empty slot),
`GetObjectById e.id` returns not-found. -/
theorem getObjectById_none_after_delete_and_cleanup
    (m : ObjectManager) (e : Obj) (n : Nat)
    (hnd : keysNodup m.objects)
    (hlive : mapFind m.objects e.id = some (some e)) :
    GetObjectById (cleanN n (DeleteObject m e).1) e.id = none := by
  have hdel : (DeleteObject m e).1.objects = mapReset m.objects e.id := by
    simp [DeleteObject, hlive]
  have hnd' : keysNodup (DeleteObject m e).1.objects := by
    rw [hdel, keysNodup, mapReset_keys]; exact hnd
  have htomb : mapFind (DeleteObject m e).1.objects e.id = some none ∨
      mapFind (DeleteObject m e).1.objects e.id = none := by
    rw [hdel]; exact Or.inl (mapFind_mapReset_self m.objects e.id (some e) hlive)
  exact getObjectById_none_of_tombstone _ _
    (cleanN_preserves_tombstone n _ e.id hnd' htomb)

/-- C3 (witness): deleting `obj0` from `mgrSingle` and cleaning once makes
the lookup of its id fail. -/
theorem getObjectById_none_after_delete_and_cleanup_witness :
    GetObjectById (cleanN 1 (DeleteObject mgrSingle obj0).1) obj0.id = none :=
  getObjectById_none_after_delete_and_cleanup mgrSingle obj0 1
    (by unfold keysNodup; with_unfolding_all decide)
    (by with_unfolding_all decide)

/-! ### Claim C9 -/

/-- C9: immediately after `DeleteObject e` returns `true`, and before any
cleanup, the key is still present (`mapCount` is 1) yet `GetObjectById e.id`
already returns not-found: a tombstoned slot is indistinguishable from an
absent key at the lookup interface. -/
theorem getObjectById_none_immediately_after_delete
    (m : ObjectManager) (e : Obj)
    (hdel : (DeleteObject m e).2 = true) :
    mapCount (DeleteObject m e).1.objects e.id = 1 ∧
    GetObjectById (DeleteObject m e).1 e.id = none := by
  cases hf : mapFind m.objects e.id with
  | none => simp [DeleteObject, hf] at hdel
  | some v =>
    have hobj : (DeleteObject m e).1.objects = mapReset m.objects e.id := by
      simp [DeleteObject, hf]
    have htomb := mapFind_mapReset_self m.objects e.id v hf
    constructor
    · rw [hobj, mapCount, htomb]
    · exact getObjectById_none_of_tombstone _ _ (by rw [hobj]; exact Or.inl htomb)

/-- C9 (witness): deleting `obj0` from `mgrSingle` returns `true`, retains
the key, and makes the id lookup fail before any cleanup. -/
theorem getObjectById_none_immediately_after_delete_witness :
    mapCount (DeleteObject mgrSingle obj0).1.objects obj0.id = 1 ∧
    GetObjectById (DeleteObject mgrSingle obj0).1 obj0.id = none :=
  getObjectById_none_immediately_after_delete mgrSingle obj0
    (by with_unfolding_all decide)

/-! ### Claim C4 -/

/-- C4: `CreateObject` with an unset id (`params.id < 0`) assigns the
current counter value as the id and advances the counter by one; with a
supplied id (under the no-collision assertion) it uses that id; a factory
failure surfaces as a `CObjectCreateException` carrying the requested
category; on success the registry stores the entity under the used id and
the entity is returned. -/
theorem createObject_id_assignment_and_failure
    (factory : ObjectCreateParams → Option Obj) (m : ObjectManager)
    (params : ObjectCreateParams) (_hassert : CreateAssertOk m params) :
    (params.id < 0 →
      (CreateObject factory m params).1.nextId = m.nextId + 1 ∧
      (factory { params with id := (m.nextId : Int) } = none →
        (CreateObject factory m params).2 = Except.error
          (CreateError.CObjectCreateException
            "Something went wrong in CObjectFactory" params.type)) ∧
      (∀ o, factory { params with id := (m.nextId : Int) } = some o →
        (CreateObject factory m params).2 = Except.ok o ∧
        mapFind (CreateObject factory m params).1.objects m.nextId =
          some (some o))) ∧
    (0 ≤ params.id →
      (factory params = none →
        (CreateObject factory m params).2 = Except.error
          (CreateError.CObjectCreateException
            "Something went wrong in CObjectFactory" params.type)) ∧
      (∀ o, factory params = some o →
        (CreateObject factory m params).2 = Except.ok o ∧
        mapFind (CreateObject factory m params).1.objects params.id.toNat =
          some (some o))) := by
  constructor
  · intro hid
    refine ⟨?_, ?_, ?_⟩
    · simp only [CreateObject, if_pos hid]
      cases factory { params with id := (m.nextId : Int) } <;> rfl
    · intro hf
      simp [CreateObject, if_pos hid, hf]
    · intro o hf
      constructor
      · simp [CreateObject, if_pos hid, hf]
      · simp only [CreateObject, if_pos hid, hf]
        simpa using mapFind_mapInsert_self m.objects m.nextId (some o)
  · intro hid
    have hneg : ¬ params.id < 0 := not_lt.mpr hid
    refine ⟨?_, ?_⟩
    · intro hf
      simp [CreateObject, if_neg hneg, hf]
    · intro o hf
      constructor
      · simp [CreateObject, if_neg hneg, hf]
      · simp only [CreateObject, if_neg hneg, hf]
        exact mapFind_mapInsert_self m.objects params.id.toNat (some o)

/-- C4 (witness): on the empty registry, creating with unset id through a
succeeding factory advances the counter to 1, returns `obj0`, and stores it
under id 0. -/
theorem createObject_id_assignment_and_failure_witness :
    (CreateObject factoryOk mgrEmpty params0).1.nextId = mgrEmpty.nextId + 1 ∧
    (CreateObject factoryOk mgrEmpty params0).2 = Except.ok obj0 ∧
    mapFind (CreateObject factoryOk mgrEmpty params0).1.objects
      mgrEmpty.nextId = some (some obj0) := by
  have h := (createObject_id_assignment_and_failure factoryOk mgrEmpty params0
    (by unfold CreateAssertOk; with_unfolding_all decide)).1
    (by with_unfolding_all decide)
  exact ⟨h.1, (h.2.2 obj0 rfl).1, (h.2.2 obj0 rfl).2⟩

/-! ### Claim C10 -/

/-- C10: an unset-id `CreateObject` whose factory fails raises the
`CObjectCreateException` and leaves the id-to-entity mapping unchanged, but
the id counter has already been advanced, so the operation is not atomic:
the next unset-id creation would receive the strictly larger id
`m.nextId + 1`. -/
theorem createObject_failure_advances_counter
    (factory : ObjectCreateParams → Option Obj) (m : ObjectManager)
    (params : ObjectCreateParams) (hid : params.id < 0)
    (hf : factory { params with id := (m.nextId : Int) } = none) :
    (CreateObject factory m params).2 = Except.error
      (CreateError.CObjectCreateException
        "Something went wrong in CObjectFactory" params.type) ∧
    (CreateObject factory m params).1.objects = m.objects ∧
    (CreateObject factory m params).1.nextId = m.nextId + 1 ∧
    m.nextId < (CreateObject factory m params).1.nextId := by
  refine ⟨?_, ?_, ?_, ?_⟩ <;> simp [CreateObject, if_pos hid, hf]

/-- C10 (witness): on the empty registry with a failing factory, creation
with unset id errors, leaves the registry empty, and bumps the counter. -/
theorem createObject_failure_advances_counter_witness :
    (CreateObject factoryFail mgrEmpty params0).2 = Except.error
      (CreateError.CObjectCreateException
        "Something went wrong in CObjectFactory" params0.type) ∧
    (CreateObject factoryFail mgrEmpty params0).1.objects = mgrEmpty.objects ∧
    (CreateObject factoryFail mgrEmpty params0).1.nextId = mgrEmpty.nextId + 1 ∧
    mgrEmpty.nextId < (CreateObject factoryFail mgrEmpty params0).1.nextId :=
  createObject_failure_advances_counter factoryFail mgrEmpty params0
    (by with_unfolding_all decide) rfl

/-! ### Claim C7 -/

/-- C7: `TeamExists 0` is true on every registry state (including the empty
one), and for nonzero `t`, `TeamExists t` is true iff some live entity of
the registry is active and has team `t`. -/
theorem teamExists_characterization (m : ObjectManager) (t : Int) :
    TeamExists m 0 = true ∧
    (t ≠ 0 → (TeamExists m t = true ↔
      ∃ k o, (k, some o) ∈ m.objects ∧ o.active = true ∧ o.team = t)) := by
  constructor
  · simp [TeamExists]
  · intro ht
    rw [TeamExists, if_neg ht, List.any_eq_true]
    constructor
    · rintro ⟨o, hmem, hprop⟩
      rw [GetAllObjects, List.mem_filterMap] at hmem
      obtain ⟨⟨k, v⟩, hm, hv⟩ := hmem
      rw [Bool.and_eq_true, decide_eq_true_eq] at hprop
      exact ⟨k, o, by rwa [show v = some o from hv] at hm, hprop.1, hprop.2⟩
    · rintro ⟨k, o, hmem, hact, hteam⟩
      refine ⟨o, ?_, ?_⟩
      · rw [GetAllObjects, List.mem_filterMap]
        exact ⟨(k, some o), hmem, rfl⟩
      · rw [Bool.and_eq_true, decide_eq_true_eq]
        exact ⟨hact, hteam⟩

/-- C7 (witness): on `mgrSingle` (one active entity of team 1),
`TeamExists 0` holds and `TeamExists 1` holds via the characterization. -/
theorem teamExists_characterization_witness :
    TeamExists mgrSingle 0 = true ∧ TeamExists mgrSingle 1 = true :=
  ⟨(teamExists_characterization mgrSingle 1).1,
   ((teamExists_characterization mgrSingle 1).2 (by decide)).mpr
     ⟨0, obj0, List.mem_singleton.mpr rfl, rfl, rfl⟩⟩

/-! ### Radar scan lemmas -/

theorem radarScan_eq_some (c : RadarCtx) (o : Obj) :
    ∀ (l : List (Nat × Option Obj)) (best : ℚ) (pBest : Option Obj),
      radarScan c l best pBest = some o →
      pBest = some o ∨ ∃ k, (k, some o) ∈ l ∧ radarCheck c o = true := by
  intro l
  induction l with
  | nil =>
    intro best pBest h
    simp only [radarScan] at h
    exact Or.inl h
  | cons hd tl ih =>
    intro best pBest h
    obtain ⟨k, slot⟩ := hd
    simp only [radarScan] at h
    by_cases hself : slot = c.pThis
    · rw [if_pos hself] at h
      rcases ih best pBest h with h' | ⟨k', hm, hc⟩
      · exact Or.inl h'
      · exact Or.inr ⟨k', List.mem_cons_of_mem _ hm, hc⟩
    · rw [if_neg hself] at h
      cases slot with
      | none =>
        replace h : radarScan c tl best pBest = some o := h
        rcases ih best pBest h with h' | ⟨k', hm, hc⟩
        · exact Or.inl h'
        · exact Or.inr ⟨k', List.mem_cons_of_mem _ hm, hc⟩
      | some a =>
        replace h : (if radarCheck c a = true then
            (if ((!c.furthest && decide (c.dProj c.iPos a.pos < best)) ||
                 (c.furthest && decide (c.dProj c.iPos a.pos > best))) = true then
              radarScan c tl (c.dProj c.iPos a.pos) (some a)
            else radarScan c tl best pBest)
          else radarScan c tl best pBest) = some o := h
        by_cases hchk : radarCheck c a = true
        · rw [if_pos hchk] at h
          by_cases hrep :
              ((!c.furthest && decide (c.dProj c.iPos a.pos < best)) ||
               (c.furthest && decide (c.dProj c.iPos a.pos > best))) = true
          · rw [if_pos hrep] at h
            rcases ih _ _ h with h' | ⟨k', hm, hc⟩
            · obtain rfl : a = o := Option.some.inj h'
              exact Or.inr ⟨k, List.mem_cons_self _ _, hchk⟩
            · exact Or.inr ⟨k', List.mem_cons_of_mem _ hm, hc⟩
          · rw [if_neg hrep] at h
            rcases ih best pBest h with h' | ⟨k', hm, hc⟩
            · exact Or.inl h'
            · exact Or.inr ⟨k', List.mem_cons_of_mem _ hm, hc⟩
        · rw [if_neg hchk] at h
          rcases ih best pBest h with h' | ⟨k', hm, hc⟩
          · exact Or.inl h'
          · exact Or.inr ⟨k', List.mem_cons_of_mem _ hm, hc⟩

theorem radarCheck_system_type_facts (c : RadarCtx) (o : Obj)
    (h : radarCheck c o = true)
    (hs : o.objType = OBJECT_TOTO ∨ o.objType = OBJECT_CONTROLLER) :
    c.type ≠ [] ∧ o.objType ∈ c.type := by
  have hnorm : (if c.cbotTypes then radarNormType o.objType else o.objType) =
      o.objType := by
    rcases hs with h' | h' <;> rw [h'] <;> cases c.cbotTypes <;> rfl
  simp only [radarCheck, Bool.and_eq_true] at h
  have hcat := h.1.1.1.1.1.1.2
  rw [hnorm] at hcat
  obtain ⟨h1, h2⟩ := hcat
  have hspecial :
      (decide (o.objType = OBJECT_TOTO) || decide (o.objType = OBJECT_CONTROLLER)) = true := by
    rcases hs with h' | h' <;> simp [h']
  rw [hspecial] at h2
  simp only [Bool.true_and, Bool.not_eq_eq_eq_not, Bool.not_true,
    decide_eq_false_iff_not] at h2
  have hne : c.type ≠ [] := fun hnil => h2 (by simp [hnil])
  refine ⟨hne, ?_⟩
  simp only [Bool.not_eq_eq_eq_not, Bool.not_true, Bool.and_eq_false_iff,
    decide_eq_false_iff_not] at h1
  rcases h1 with h1 | h1
  · exact not_not.mp h1
  · exact absurd (List.length_pos.mpr hne) h1

theorem radar_singleton (dProj : Vec → Vec → ℚ) (rotAngle : ℚ → ℚ → ℚ)
    (gUnit : ℚ) (pThis : Option Obj) (thisPosition : Vec) (thisAngle : ℚ)
    (type : List ObjectType) (angle focus minDist maxDist : ℚ)
    (furthest : Bool) (filter : Nat) (cbotTypes : Bool) (k : Nat) (o : Obj)
    (hacc : radarAccepts dProj rotAngle gUnit pThis thisPosition thisAngle
      type angle focus minDist maxDist furthest filter cbotTypes o = true) :
    Radar dProj rotAngle gUnit [(k, some o)] pThis thisPosition thisAngle
      type angle focus minDist maxDist furthest filter cbotTypes =
    if (furthest = false ∧ dProj thisPosition o.pos < 100000) ∨
       (furthest = true ∧ 0 < dProj thisPosition o.pos)
    then some o else none := by
  simp only [radarAccepts, Bool.and_eq_true, decide_eq_true_eq] at hacc
  obtain ⟨hne, hchk⟩ := hacc
  rw [Radar]
  simp only [radarScan]
  rw [if_neg (show ¬(some o = (mkRadarCtx dProj rotAngle gUnit pThis
    thisPosition thisAngle type angle focus minDist maxDist furthest filter
    cbotTypes).pThis) from hne)]
  rw [if_pos hchk]
  cases furthest with
  | false =>
    by_cases hd : dProj thisPosition o.pos < 100000 <;>
      simp [radarScan, mkRadarCtx, hd]
  | true =>
    by_cases hd : 0 < dProj thisPosition o.pos <;>
      simp [radarScan, mkRadarCtx, hd]

/-! ### Claim C6 -/

/-- C6: `Radar` never returns an entity of the system categories
`OBJECT_TOTO` / `OBJECT_CONTROLLER` unless that category is explicitly a
member of a non-empty requested set; in particular a wildcard (empty-set)
query can never return them. -/
theorem radar_system_types_need_explicit_request
    (dProj : Vec → Vec → ℚ) (rotAngle : ℚ → ℚ → ℚ) (gUnit : ℚ)
    (objects : List (Nat × Option Obj)) (pThis : Option Obj)
    (thisPosition : Vec) (thisAngle : ℚ) (type : List ObjectType)
    (angle focus minDist maxDist : ℚ) (furthest : Bool) (filter : Nat)
    (cbotTypes : Bool) (o : Obj)
    (hr : Radar dProj rotAngle gUnit objects pThis thisPosition thisAngle
      type angle focus minDist maxDist furthest filter cbotTypes = some o)
    (hs : o.objType = OBJECT_TOTO ∨ o.objType = OBJECT_CONTROLLER) :
    type ≠ [] ∧ o.objType ∈ type := by
  rw [Radar] at hr
  rcases radarScan_eq_some _ o objects _ none hr with h' | ⟨k, _, hchk⟩
  · cases h'
  · have := radarCheck_system_type_facts _ o hchk hs
    simpa [mkRadarCtx] using this

/-- C6 (witness): a `TOTO` entity is returned when `OBJECT_TOTO` is
explicitly requested, and the theorem then certifies the set is non-empty
and contains it. -/
theorem radar_system_types_need_explicit_request_witness :
    Radar dProj0 rot0 1 [(0, some totoObj)] none vec0 0 [OBJECT_TOTO] 0 2 0 5
      false 0 false = some totoObj ∧
    (([OBJECT_TOTO] : List ObjectType) ≠ [] ∧
      totoObj.objType ∈ [OBJECT_TOTO]) :=
  ⟨by with_unfolding_all decide,
   radar_system_types_need_explicit_request dProj0 rot0 1 [(0, some totoObj)]
     none vec0 0 [OBJECT_TOTO] 0 2 0 5 false 0 false totoObj
     (by with_unfolding_all decide) (Or.inl rfl)⟩

/-! ### Claim C8 -/

/-- C8: for every well-formed registry state and every radar query, an
entity removed by `DeleteObject` but not yet physically erased by
`CleanRemovedObjects` is never returned by `Radar`: its slot holds
`nullptr`, which the scan skips. -/
theorem radar_never_returns_removed_entity
    (m : ObjectManager) (e : Obj)
    (hnd : keysNodup m.objects)
    (hwf : ∀ k o, (k, some o) ∈ m.objects → o.id = k)
    (hlive : mapFind m.objects e.id = some (some e))
    (dProj : Vec → Vec → ℚ) (rotAngle : ℚ → ℚ → ℚ) (gUnit : ℚ)
    (pThis : Option Obj) (thisPosition : Vec) (thisAngle : ℚ)
    (type : List ObjectType) (angle focus minDist maxDist : ℚ)
    (furthest : Bool) (filter : Nat) (cbotTypes : Bool) :
    Radar dProj rotAngle gUnit (DeleteObject m e).1.objects pThis
      thisPosition thisAngle type angle focus minDist maxDist furthest
      filter cbotTypes ≠ some e := by
  intro hr
  have hdel : (DeleteObject m e).1.objects = mapReset m.objects e.id := by
    simp [DeleteObject, hlive]
  rw [Radar, hdel] at hr
  rcases radarScan_eq_some _ e _ _ none hr with h' | ⟨k, hm, _⟩
  · cases h'
  · have hmem0 : (k, some e) ∈ m.objects :=
      mem_of_mem_mapReset m.objects e.id k e hm
    have hk : e.id = k := hwf k e hmem0
    subst hk
    have hnd' : keysNodup (mapReset m.objects e.id) := by
      rw [keysNodup, mapReset_keys]; exact hnd
    have hfound := mapFind_of_mem_nodup _ e.id (some e) hnd' hm
    rw [mapFind_mapReset_self m.objects e.id (some e) hlive] at hfound
    simp at hfound

/-- C8 (witness): after deleting `obj0` from `mgrSingle`, a full-circle
wildcard query does not return `obj0`. -/
theorem radar_never_returns_removed_entity_witness :
    Radar dProj0 rot0 1 (DeleteObject mgrSingle obj0).1.objects none vec0 0
      [] 0 2 0 5 false 0 false ≠ some obj0 :=
  radar_never_returns_removed_entity mgrSingle obj0
    (by unfold keysNodup; with_unfolding_all decide)
    (by
      intro k o h
      simp only [mgrSingle, List.mem_singleton, Prod.mk.injEq,
        Option.some.injEq] at h
      obtain ⟨rfl, rfl⟩ := h
      rfl)
    (by with_unfolding_all decide)
    dProj0 rot0 1 none vec0 0 [] 0 2 0 5 false 0 false

/-! ### Claim C1 -/

/-- C1 (counterexample): with `normalizeCategories` set, requested set
`{OBJECT_RUINmobilew2}` (a non-canonical ruin variant) and a candidate of
category `OBJECT_RUINmobilew1` (the canonical representative) that passes
every other filter, the category filter rejects the candidate and the query
returns not-found — the source normalizes only the candidate's category,
never the requested set, so the claimed match fails. -/
theorem radar_reverse_ruin_query_fails :
    radarAccepts dProj0 rot0 1 none vec0 0 [OBJECT_RUINmobilew2] 0 2 0 1
      false 0 true ruin1Obj = false ∧
    Radar dProj0 rot0 1 [(0, some ruin1Obj)] none vec0 0
      [OBJECT_RUINmobilew2] 0 2 0 1 false 0 true = none := by
  with_unfolding_all decide

/-- C1 (amended): with `normalizeCategories` set, normalization runs in one
direction only: a candidate of the non-canonical variant
`OBJECT_RUINmobilew2` is normalized to the representative
`OBJECT_RUINmobilew1` and matches a query for `{OBJECT_RUINmobilew1}`,
whereas a query for `{OBJECT_RUINmobilew2}` never matches a candidate of
the canonical category `OBJECT_RUINmobilew1` (the requested set is not
normalized). -/
theorem radarNormType_ruinw2 :
    radarNormType OBJECT_RUINmobilew2 = OBJECT_RUINmobilew1 := by decide

theorem radarNormType_ruinw1 :
    radarNormType OBJECT_RUINmobilew1 = OBJECT_RUINmobilew1 := by decide

theorem radar_normalizes_candidate_not_query
    (dProj : Vec → Vec → ℚ) (rotAngle : ℚ → ℚ → ℚ) (o : Obj)
    (ht : o.objType = OBJECT_RUINmobilew2)
    (htr : o.beingTransported = false) (ha : o.active = true)
    (hp : o.proxyActivate = false)
    (hd : dProj vec0 o.pos = 0) :
    Radar dProj rotAngle 1 [(0, some o)] none vec0 0 [OBJECT_RUINmobilew1]
      0 2 0 1 false 0 true = some o ∧
    (∀ o' : Obj, o'.objType = OBJECT_RUINmobilew1 →
      radarAccepts dProj rotAngle 1 none vec0 0 [OBJECT_RUINmobilew2] 0 2 0
        1 false 0 true o' = false) := by
  constructor
  · have hacc : radarAccepts dProj rotAngle 1 none vec0 0
        [OBJECT_RUINmobilew1] 0 2 0 1 false 0 true o = true := by
      norm_num [radarAccepts, radarCheck, mkRadarCtx, ht, htr,
        ha, hp, hd, radarNormType_ruinw2, FILTER_ONLYLANDING,
        FILTER_ONLYFLYING, FILTER_FRIENDLY, FILTER_ENEMY, FILTER_NEUTRAL]
      exact Option.some_ne_none o
    rw [radar_singleton dProj rotAngle 1 none vec0 0 [OBJECT_RUINmobilew1]
      0 2 0 1 false 0 true 0 o hacc]
    norm_num [hd]
  · intro o' ht'
    norm_num [radarAccepts, radarCheck, mkRadarCtx, ht',
      radarNormType_ruinw1]
    intro _ _ _ _ h
    exact absurd h (by decide)

/-- C1 (witness for the amended theorem): the concrete candidate
`ruin2Obj` at the query position instantiates both directions. -/
theorem radar_normalizes_candidate_not_query_witness :
    Radar dProj0 rot0 1 [(0, some ruin2Obj)] none vec0 0
      [OBJECT_RUINmobilew1] 0 2 0 1 false 0 true = some ruin2Obj ∧
    radarAccepts dProj0 rot0 1 none vec0 0 [OBJECT_RUINmobilew2] 0 2 0 1
      false 0 true ruin1Obj = false := by
  have h := radar_normalizes_candidate_not_query dProj0 rot0 ruin2Obj rfl
    rfl rfl rfl rfl
  exact ⟨h.1, h.2 ruin1Obj rfl⟩

/-! ### Claim C5 -/

/-- C5 (counterexample): in furthest mode the sentinel best distance is 0,
and a candidate at planar distance exactly 0 (coincident with the query
position) passes every filter yet does not satisfy the strict replacement
test `d > best`, so the query returns not-found even though a candidate
passed all filters.  This falsifies "the first candidate that passes all
filters always replaces the sentinel". -/
theorem radar_furthest_drops_zero_distance :
    radarAccepts dProj0 rot0 1 none vec0 0 [] 0 2 0 5 true 0 false obj0 =
      true ∧
    Radar dProj0 rot0 1 [(0, some obj0)] none vec0 0 [] 0 2 0 5 true 0
      false = none := by
  with_unfolding_all decide

/-- C5 (amended): the sentinel best is the large constant 100000 in nearest
mode and 0 in furthest mode, and the first (single) candidate that passes
all filters becomes the result exactly when its distance is strictly below
100000 (nearest mode) respectively strictly above 0 (furthest mode);
otherwise the result is empty despite a passing candidate. -/
theorem radar_sentinel_replacement
    (dProj : Vec → Vec → ℚ) (rotAngle : ℚ → ℚ → ℚ) (gUnit : ℚ)
    (pThis : Option Obj) (thisPosition : Vec) (thisAngle : ℚ)
    (type : List ObjectType) (angle focus minDist maxDist : ℚ)
    (furthest : Bool) (filter : Nat) (cbotTypes : Bool) (k : Nat) (o : Obj)
    (hacc : radarAccepts dProj rotAngle gUnit pThis thisPosition thisAngle
      type angle focus minDist maxDist furthest filter cbotTypes o = true) :
    Radar dProj rotAngle gUnit [(k, some o)] pThis thisPosition thisAngle
      type angle focus minDist maxDist furthest filter cbotTypes =
    if (furthest = false ∧ dProj thisPosition o.pos < 100000) ∨
       (furthest = true ∧ 0 < dProj thisPosition o.pos)
    then some o else none :=
  radar_singleton dProj rotAngle gUnit pThis thisPosition thisAngle type
    angle focus minDist maxDist furthest filter cbotTypes k o hacc

/-- C5 (witness): in nearest mode the passing candidate at distance 0
(below the 100000 sentinel) is returned. -/
theorem radar_sentinel_replacement_witness :
    Radar dProj0 rot0 1 [(0, some obj0)] none vec0 0 [] 0 2 0 5 false 0
      false = some obj0 := by
  rw [radar_sentinel_replacement dProj0 rot0 1 none vec0 0 [] 0 2 0 5 false
    0 false 0 obj0 (by with_unfolding_all decide)]
  norm_num [dProj0]
